import Mathlib

/-!
# Mustika SIP client — the session controller of `src/App.js`

A shallow embedding of the React component `App` of `src/App.js`:

* the module-level constants `SipModule`, `SipCallManager`, `sipEvents` (lines 15-22)
  become the fields of `Env`;
* the `useState` cells (lines 25-30) become the record `State`;
* every handler (`handleLogin`, `handleCall`, `handleHangup`, the six event
  listeners, the `useEffect` that subscribes them) becomes a function that returns
  the list of React setter calls and native-module invocations it performs, in
  program order (`Effect`);
* what a native promise does (resolve, or reject with some value) is an argument of
  the handler (`Outcome`): the theorems quantify over it.

Logging (`console.log`, `console.warn`, `console.error`) and rendering are left out.
A handler runs to completion inside one step of a trace: the continuation after an
`await` is part of the step that started it.  A native module that is present is
assumed to provide the methods the source calls on it.
-/

namespace Mustika

/-! ## JavaScript values -/

/-- The JavaScript values that reach an expression of the form `x.message || x`:
event payloads and promise rejection values.  An object is described by its `message`
property (`none` when the property is `undefined`) and by the text its string
conversion gives (`"[object Object]"` for a plain object, `"Error: busy"` for an
`Error`). -/
inductive JSValue where
  | undefined
  | null
  | str (s : String)
  | obj (message : Option String) (shown : String)
deriving DecidableEq, Repr

/-- Conversion of a value inside a template literal. -/
def JSValue.toStr : JSValue → String
  | .undefined => "undefined"
  | .null => "null"
  | .str s => s
  | .obj _ shown => shown

/-- The text of `x.message || x` inside a template literal.  Reading a property of
`undefined` or `null` throws a `TypeError`: the result is `none`.  A string has no
`message` property, and an empty `message` is falsy, so both fall through to the value
itself. -/
def messageOr : JSValue → Option String
  | .undefined => none
  | .null => none
  | .str s => some s
  | .obj (some m) shown => some (if m = "" then shown else m)
  | .obj none shown => some shown

/-- JavaScript `s.startsWith(p)`.  The two marks the source tests for are single
UTF-16 code units, so the comparison of code points agrees with the one of code
units. -/
def startsWith (s p : String) : Bool := p.data.isPrefixOf s.data

/-- The three kinds of a status line, as the presentation shows them (lines 220-227):
green, red and blue. -/
inductive StatusKind where
  | Success
  | Error
  | Info
deriving DecidableEq, Repr

/-- Kind of a status text: the colour expression
`status.startsWith('✅') ? 'green' : status.startsWith('❌') ? 'red' : 'blue'`. -/
def statusKind (status : String) : StatusKind :=
  if startsWith status "✅" then .Success
  else if startsWith status "❌" then .Error
  else .Info

/-- A status text contains a message. -/
def containsText (status m : String) : Prop := m.data <:+: status.data

instance (status m : String) : Decidable (containsText status m) := by
  unfold containsText; infer_instance

/-! ## Environment, state and effects -/

/-- The module-level constants of lines 15-22. -/
structure Env where
  /-- The test `Platform.OS === 'android'`. -/
  android : Bool
  /-- Whether `NativeModules.SipModule` is present (truthy). -/
  sipModule : Bool
  /-- Whether `NativeModules.SipCallManager` is present; otherwise `SipCallManager` is the
  empty object and calling one of its methods throws a `TypeError`. -/
  sipCallManager : Bool
  /-- The message of the `TypeError` the engine throws when an undefined property is
  called. -/
  notAFunction : String
deriving DecidableEq, Repr

/-- The constant `sipEvents` is an emitter exactly when
`SipModule && Platform.OS === 'android'`; otherwise it is `null`. -/
def Env.sipEvents (env : Env) : Bool := env.sipModule && env.android

/-- The `TypeError` thrown by a call of a method that `SipCallManager` lacks. -/
def Env.typeError (env : Env) : JSValue :=
  .obj (some env.notAFunction) ("TypeError: " ++ env.notAFunction)

/-- The `useState` cells of the component (lines 25-30). -/
structure State where
  sipUsername : String
  sipPassword : String
  sipDomain : String
  callee : String
  status : String
  isRegistered : Bool
deriving DecidableEq, Repr

/-- The initial values given to `useState`. -/
def State.initial : State :=
  { sipUsername := "", sipPassword := "", sipDomain := "", callee := "",
    status := "Not connected", isRegistered := false }

/-- The operations of the native modules that the component calls. -/
inductive ProviderOp where
  /-- The call `SipModule.initialize()`. -/
  | initializeModule
  | listenForIncomingCalls
  | init (username domain password : String)
  | register (username domain password : String)
  | makeCall (callee : String)
  | hangup
deriving DecidableEq, Repr

/-- What a handler does, in program order: a React setter call, an invocation of a
native operation, or an exception that leaves the handler uncaught. -/
inductive Effect where
  | setSipUsername (text : String)
  | setSipPassword (text : String)
  | setSipDomain (text : String)
  | setCallee (text : String)
  | setStatus (text : String)
  | setIsRegistered (b : Bool)
  | invoke (op : ProviderOp)
  | throw
deriving DecidableEq, Repr

/-- The state after one effect. -/
def applyEffect (s : State) : Effect → State
  | .setSipUsername t => { s with sipUsername := t }
  | .setSipPassword t => { s with sipPassword := t }
  | .setSipDomain t => { s with sipDomain := t }
  | .setCallee t => { s with callee := t }
  | .setStatus t => { s with status := t }
  | .setIsRegistered b => { s with isRegistered := b }
  | .invoke _ => s
  | .throw => s

/-- The state after a list of effects. -/
def applyEffects (s : State) (effs : List Effect) : State := effs.foldl applyEffect s

/-- Whether an effect is a call of `setStatus`. -/
def Effect.isSetStatus : Effect → Bool
  | .setStatus _ => true
  | _ => false

/-- Whether an effect is an invocation of a native operation. -/
def Effect.isInvoke : Effect → Bool
  | .invoke _ => true
  | _ => false

/-- Whether an effect is an invocation of `SipCallManager.makeCall`. -/
def Effect.isMakeCall : Effect → Bool
  | .invoke (.makeCall _) => true
  | _ => false

/-- Number of `setStatus` calls in a list of effects. -/
def statusUpdates (effs : List Effect) : Nat := effs.countP Effect.isSetStatus

/-- Number of native operations invoked in a list of effects. -/
def providerCalls (effs : List Effect) : Nat := effs.countP Effect.isInvoke

/-- Number of invocations of `SipCallManager.makeCall` in a list of effects. -/
def makeCalls (effs : List Effect) : Nat := effs.countP Effect.isMakeCall

/-- How an awaited native promise ends. -/
inductive Outcome where
  | resolved
  | rejected (err : JSValue)
deriving DecidableEq, Repr

/-- The statement `setStatus(pre + (err.message || err))` written as a template literal:
the argument is evaluated first, and when that throws `setStatus` is not called. -/
def setStatusWithError (pre : String) (err : JSValue) : List Effect :=
  match messageOr err with
  | some m => [.setStatus (pre ++ m)]
  | none => [.throw]

/-! ## The action handlers -/

/-- The function `handleLogin` (lines 104-129).  `initOut` and `registerOut` are the
outcomes of the promises of `SipCallManager.init` and `SipModule.register`. -/
def handleLogin (env : Env) (s : State) (initOut registerOut : Outcome) : List Effect :=
  if s.sipUsername = "" ∨ s.sipPassword = "" ∨ s.sipDomain = "" then
    [.setStatus "⚠️ Fill all SIP login fields"]
  else if env.sipModule = false then
    [.setStatus "❌ Native module not loaded"]
  else
    .setStatus "Registering..." ::
      (if env.sipCallManager = false then
        setStatusWithError "❌ Error: " env.typeError
      else
        .invoke (.init s.sipUsername s.sipDomain s.sipPassword) ::
          (match initOut with
           | .rejected err => setStatusWithError "❌ Error: " err
           | .resolved =>
             .invoke (.register s.sipUsername s.sipDomain s.sipPassword) ::
               (match registerOut with
                | .rejected err => setStatusWithError "❌ Error: " err
                | .resolved => [.setStatus "✅ Registration in progress"])))

/-- The function `handleCall` (lines 131-155).  `out` is the outcome of the promise of
`SipCallManager.makeCall`.  The test `!SipCallManager` of line 142 is always false,
because `SipCallManager` is `NativeModules.SipCallManager || {}`. -/
def handleCall (env : Env) (s : State) (out : Outcome) : List Effect :=
  if s.callee = "" then
    [.setStatus "⚠️ Enter SIP number to call."]
  else if s.isRegistered = false then
    [.setStatus "⚠️ Please register first"]
  else if env.sipModule = false then
    [.setStatus "❌ SIP not available"]
  else
    .setStatus "📞 Calling..." ::
      (if env.sipCallManager = false then
        setStatusWithError "❌ Call failed: " env.typeError
      else
        .invoke (.makeCall s.callee) ::
          (match out with
           | .rejected err => setStatusWithError "❌ Call failed: " err
           | .resolved => [.setStatus "✅ Call initiated"]))

/-- The function `handleHangup` (lines 157-165). -/
def handleHangup (env : Env) (out : Outcome) : List Effect :=
  if env.sipCallManager = false then
    setStatusWithError "❌ Hangup failed: " env.typeError
  else
    .invoke .hangup ::
      (match out with
       | .rejected err => setStatusWithError "❌ Hangup failed: " err
       | .resolved => [.setStatus "📴 Call ended"])

/-- A press of the Login button (lines 192-196): the button is rendered with
`disabled={isRegistered}`, and a disabled button does not call `onPress`. -/
def pressLogin (env : Env) (s : State) (initOut registerOut : Outcome) : List Effect :=
  if s.isRegistered then [] else handleLogin env s initOut registerOut

/-! ## The event listeners and the emitter -/

/-- The six events of the native module. -/
inductive EventKind where
  | RegistrationSuccess
  | RegistrationFailed
  | IncomingCall
  | CallEstablished
  | CallEnded
  | CallError
deriving DecidableEq, Repr

/-- The six listeners of lines 69-95, by event kind, applied to the payload of the
event. -/
def listener : EventKind → JSValue → List Effect
  | .RegistrationSuccess, _ =>
    [.setIsRegistered true, .setStatus "✅ Registered successfully"]
  | .RegistrationFailed, error =>
    .setIsRegistered false :: setStatusWithError "❌ Registration failed: " error
  | .IncomingCall, caller =>
    [.setStatus ("📞 Incoming call from " ++ caller.toStr)]
  | .CallEstablished, _ => [.setStatus "✅ Call connected"]
  | .CallEnded, _ => [.setStatus "📴 Call ended"]
  | .CallError, err => setStatusWithError "❌ Call error: " err

/-- One entry of the listener table of the emitter: what `addListener` returns. -/
structure Subscription where
  id : Nat
  kind : EventKind
deriving DecidableEq, Repr

/-- The listener table of `sipEvents`. -/
structure Emitter where
  subs : List Subscription
  nextId : Nat
deriving DecidableEq, Repr

/-- An emitter without listeners. -/
def Emitter.empty : Emitter := { subs := [], nextId := 0 }

/-- The call `sipEvents.addListener(kind, ...)`: the new table and the subscription. -/
def Emitter.addListener (em : Emitter) (kind : EventKind) : Emitter × Nat :=
  ({ subs := em.subs ++ [{ id := em.nextId, kind := kind }], nextId := em.nextId + 1 },
    em.nextId)

/-- The call `sub.remove()`. -/
def Emitter.remove (em : Emitter) (id : Nat) : Emitter :=
  { em with subs := em.subs.filter (fun sub => sub.id != id) }

/-- Delivery of an event to a listener table: every listener of the kind runs, in the
order of subscription; an exception leaves the loop. -/
def dispatch : List Subscription → EventKind → JSValue → List Effect
  | [], _, _ => []
  | sub :: rest, kind, payload =>
    if sub.kind = kind then
      (if Effect.throw ∈ listener kind payload then listener kind payload
       else listener kind payload ++ dispatch rest kind payload)
    else dispatch rest kind payload

/-- How the block `SipModule.initialize(); SipModule.listenForIncomingCalls();` of
lines 60-66 ends. -/
inductive InitOutcome where
  | ok
  | initializeThrows
  | listenThrows
deriving DecidableEq, Repr

/-- The effects of the `try`/`catch` block of lines 60-66. -/
def initEffects : InitOutcome → List Effect
  | .ok => [.invoke .initializeModule, .invoke .listenForIncomingCalls]
  | .initializeThrows => [.invoke .initializeModule, .setStatus "❌ Initialization failed"]
  | .listenThrows =>
    [.invoke .initializeModule, .invoke .listenForIncomingCalls,
      .setStatus "❌ Initialization failed"]

/-- Result of running the effect body of lines 56-102: the listener table, the effects,
and the subscriptions held by the returned cleanup function (`none` when the body
returns nothing). -/
structure Activation where
  emitter : Emitter
  effects : List Effect
  cleanup : Option (List Nat)
deriving DecidableEq, Repr

/-- The body of the `useEffect` of lines 56-102. -/
def activate (env : Env) (io : InitOutcome) (em : Emitter) : Activation :=
  if env.android && env.sipModule && env.sipEvents then
    let r1 := em.addListener .RegistrationSuccess
    let r2 := r1.1.addListener .RegistrationFailed
    let r3 := r2.1.addListener .IncomingCall
    let r4 := r3.1.addListener .CallEstablished
    let r5 := r4.1.addListener .CallEnded
    let r6 := r5.1.addListener .CallError
    { emitter := r6.1, effects := initEffects io,
      cleanup := some [r1.2, r2.2, r3.2, r4.2, r5.2, r6.2] }
  else
    { emitter := em, effects := [], cleanup := none }

/-- Teardown: React runs the cleanup function that the effect body returned, if any
(`subscriptions.forEach((sub) => sub.remove())`). -/
def teardown (em : Emitter) : Option (List Nat) → Emitter
  | none => em
  | some ids => ids.foldl Emitter.remove em

/-- A sequence of activations, each followed by its teardown; the list gives how the
initialization block ends in each of them. -/
def cycles (env : Env) : List InitOutcome → Emitter → Emitter
  | [], em => em
  | io :: rest, em =>
    cycles env rest (teardown (activate env io em).emitter (activate env io em).cleanup)

/-! ## Traces of the mounted component -/

/-- The mounted component: its state and the listener table of the emitter. -/
structure Session where
  state : State
  subs : List Subscription
deriving DecidableEq, Repr

/-- The component after its first render and the run of its effect body. -/
def mount (env : Env) (io : InitOutcome) : Session :=
  { state := applyEffects State.initial (activate env io Emitter.empty).effects,
    subs := (activate env io Emitter.empty).emitter.subs }

/-- What can happen to the mounted component: an edit of one of the four text inputs,
a call of one of the three action handlers (with the outcomes of its promises), or an
event sent by the native module. -/
inductive Step where
  | editUsername (text : String)
  | editPassword (text : String)
  | editDomain (text : String)
  | editCallee (text : String)
  | login (initOut registerOut : Outcome)
  | call (out : Outcome)
  | hangup (out : Outcome)
  | event (kind : EventKind) (payload : JSValue)
deriving DecidableEq, Repr

/-- The effects of one step. -/
def stepEffects (env : Env) (w : Session) : Step → List Effect
  | .editUsername t => [.setSipUsername t]
  | .editPassword t => [.setSipPassword t]
  | .editDomain t => [.setSipDomain t]
  | .editCallee t => [.setCallee t]
  | .login initOut registerOut => handleLogin env w.state initOut registerOut
  | .call out => handleCall env w.state out
  | .hangup out => handleHangup env out
  | .event kind payload => dispatch w.subs kind payload

/-- The session after one step. -/
def step (env : Env) (w : Session) (st : Step) : Session :=
  { w with state := applyEffects w.state (stepEffects env w st) }

/-- The session after a sequence of steps. -/
def run (env : Env) (w : Session) (steps : List Step) : Session :=
  steps.foldl (step env) w

/-- The log of a sequence of steps: for each step, the state it started in and the
effects it had. -/
def trace (env : Env) : Session → List Step → List (State × List Effect)
  | _, [] => []
  | w, st :: rest => (w.state, stepEffects env w st) :: trace env (step env w st) rest


/-- All the effects of a sequence of steps, in order. -/
def allEffects (env : Env) : Session → List Step → List Effect
  | _, [] => []
  | w, st :: rest => stepEffects env w st ++ allEffects env (step env w st) rest

/-- The invariant of the mounted component: it is registered only when `SipModule` is
present, and without the emitter `sipEvents` no listener is subscribed. -/
def Session.Inv (env : Env) (w : Session) : Prop :=
  (w.state.isRegistered = true → env.sipModule = true) ∧
  (env.sipEvents = false → w.subs = [])

/-- Every subscription of the table was issued before `nextId`. -/
def Emitter.Fresh (em : Emitter) : Prop := ∀ sub ∈ em.subs, sub.id < em.nextId

/-- Number of listeners of one kind in a listener table. -/
def listenersOf (subs : List Subscription) (kind : EventKind) : Nat :=
  subs.countP (fun sub => sub.kind = kind)

/-! ## Sample inputs -/

/-- An Android build with both native modules. -/
def fullEnv : Env :=
  { android := true, sipModule := true, sipCallManager := true,
    notAFunction := "undefined is not a function" }

/-- A build without the native modules. -/
def bareEnv : Env :=
  { android := true, sipModule := false, sipCallManager := false,
    notAFunction := "undefined is not a function" }

/-- The form filled in, before registration. -/
def aliceState : State :=
  { sipUsername := "alice", sipPassword := "pw", sipDomain := "sip.example.com",
    callee := "1000", status := "Not connected", isRegistered := false }

/-- The form filled in, after a `RegistrationSuccess` event. -/
def aliceRegistered : State :=
  { sipUsername := "alice", sipPassword := "pw", sipDomain := "sip.example.com",
    callee := "1000", status := "✅ Registered successfully", isRegistered := true }

/-- The mounted component with the form filled in, before registration. -/
def aliceSession : Session :=
  { state := aliceState, subs := (mount fullEnv .ok).subs }

/-- A listener table that already holds one foreign listener. -/
def busyEmitter : Emitter := { subs := [{ id := 0, kind := .CallEnded }], nextId := 1 }

/-! ## Auxiliary facts: the shape of the effects of each handler -/

/-- Effects that never call `setIsRegistered`. -/
def keepsRegistration (effs : List Effect) : Prop :=
  ∀ e ∈ effs, ∀ b, e ≠ Effect.setIsRegistered b

/-- An effect that is a `setStatus` call or an uncaught exception. -/
def Effect.isReport (e : Effect) : Prop := (∃ t, e = Effect.setStatus t) ∨ e = Effect.throw

theorem applyEffects_nil (s : State) : applyEffects s [] = s := rfl

theorem applyEffects_cons (s : State) (e : Effect) (effs : List Effect) :
    applyEffects s (e :: effs) = applyEffects (applyEffect s e) effs := rfl

theorem applyEffects_isRegistered (effs : List Effect) :
    ∀ s : State, keepsRegistration effs →
      (applyEffects s effs).isRegistered = s.isRegistered := by
  induction effs with
  | nil => intro s _; rfl
  | cons e rest ih =>
    intro s h
    rw [applyEffects_cons, ih]
    · cases e <;> first | rfl | exact absurd rfl (h _ (List.mem_cons_self _ _) _)
    · intro e1 he1 b
      exact h e1 (List.mem_cons_of_mem _ he1) b

theorem setStatusWithError_effects (pre : String) (err : JSValue) :
    ∀ e ∈ setStatusWithError pre err, e.isReport := by
  intro e he
  unfold setStatusWithError at he
  split at he <;> simp at he <;> subst he
  · exact Or.inl ⟨_, rfl⟩
  · exact Or.inr rfl

theorem handleLogin_effects (env : Env) (s : State) (initOut registerOut : Outcome) :
    ∀ e ∈ handleLogin env s initOut registerOut,
      e.isReport ∨
      (env.sipModule = true ∧ env.sipCallManager = true ∧
        (e = .invoke (.init s.sipUsername s.sipDomain s.sipPassword) ∨
         e = .invoke (.register s.sipUsername s.sipDomain s.sipPassword))) := by
  intro e he
  unfold handleLogin at he
  split at he
  · simp at he; subst he; exact Or.inl (Or.inl ⟨_, rfl⟩)
  · split at he
    · simp at he; subst he; exact Or.inl (Or.inl ⟨_, rfl⟩)
    · rename_i hm
      simp only [List.mem_cons] at he
      rcases he with rfl | he
      · exact Or.inl (Or.inl ⟨_, rfl⟩)
      · split at he
        · exact Or.inl (setStatusWithError_effects _ _ e he)
        · rename_i hc
          have hm1 : env.sipModule = true := by simpa using hm
          have hc1 : env.sipCallManager = true := by simpa using hc
          simp only [List.mem_cons] at he
          rcases he with rfl | he
          · exact Or.inr ⟨hm1, hc1, Or.inl rfl⟩
          · split at he
            · exact Or.inl (setStatusWithError_effects _ _ e he)
            · simp only [List.mem_cons] at he
              rcases he with rfl | he
              · exact Or.inr ⟨hm1, hc1, Or.inr rfl⟩
              · split at he
                · exact Or.inl (setStatusWithError_effects _ _ e he)
                · simp at he; subst he; exact Or.inl (Or.inl ⟨_, rfl⟩)

theorem handleCall_effects (env : Env) (s : State) (out : Outcome) :
    ∀ e ∈ handleCall env s out,
      e.isReport ∨
      (e = .invoke (.makeCall s.callee) ∧ s.callee ≠ "" ∧ s.isRegistered = true ∧
        env.sipModule = true ∧ env.sipCallManager = true) := by
  intro e he
  unfold handleCall at he
  split at he
  · simp at he; subst he; exact Or.inl (Or.inl ⟨_, rfl⟩)
  · rename_i h0
    split at he
    · simp at he; subst he; exact Or.inl (Or.inl ⟨_, rfl⟩)
    · rename_i hr
      split at he
      · simp at he; subst he; exact Or.inl (Or.inl ⟨_, rfl⟩)
      · rename_i hm
        simp only [List.mem_cons] at he
        rcases he with rfl | he
        · exact Or.inl (Or.inl ⟨_, rfl⟩)
        · split at he
          · exact Or.inl (setStatusWithError_effects _ _ e he)
          · rename_i hc
            simp only [List.mem_cons] at he
            rcases he with rfl | he
            · exact Or.inr ⟨rfl, h0, by simpa using hr, by simpa using hm, by simpa using hc⟩
            · split at he
              · exact Or.inl (setStatusWithError_effects _ _ e he)
              · simp at he; subst he; exact Or.inl (Or.inl ⟨_, rfl⟩)

theorem handleHangup_effects (env : Env) (out : Outcome) :
    ∀ e ∈ handleHangup env out, e.isReport ∨ e = .invoke .hangup := by
  intro e he
  unfold handleHangup at he
  split at he
  · exact Or.inl (setStatusWithError_effects _ _ e he)
  · simp only [List.mem_cons] at he
    rcases he with rfl | he
    · exact Or.inr rfl
    · split at he
      · exact Or.inl (setStatusWithError_effects _ _ e he)
      · simp at he; subst he; exact Or.inl (Or.inl ⟨_, rfl⟩)

theorem listener_effects (kind : EventKind) (payload : JSValue) :
    ∀ e ∈ listener kind payload,
      e.isReport ∨
      (e = .setIsRegistered true ∧ kind = .RegistrationSuccess) ∨
      (e = .setIsRegistered false ∧ kind = .RegistrationFailed) := by
  intro e he
  cases kind <;> simp only [listener, List.mem_cons, List.mem_singleton, List.not_mem_nil,
    or_false] at he
  · rcases he with rfl | rfl
    · exact Or.inr (Or.inl ⟨rfl, rfl⟩)
    · exact Or.inl (Or.inl ⟨_, rfl⟩)
  · rcases he with rfl | he
    · exact Or.inr (Or.inr ⟨rfl, rfl⟩)
    · exact Or.inl (setStatusWithError_effects _ _ e he)
  · subst he; exact Or.inl (Or.inl ⟨_, rfl⟩)
  · subst he; exact Or.inl (Or.inl ⟨_, rfl⟩)
  · subst he; exact Or.inl (Or.inl ⟨_, rfl⟩)
  · exact Or.inl (setStatusWithError_effects _ _ e he)

theorem dispatch_effects (subs : List Subscription) (kind : EventKind) (payload : JSValue) :
    ∀ e ∈ dispatch subs kind payload, e ∈ listener kind payload ∧ subs ≠ [] := by
  induction subs with
  | nil => intro e he; simp [dispatch] at he
  | cons sub rest ih =>
    intro e he
    refine ⟨?_, List.cons_ne_nil _ _⟩
    unfold dispatch at he
    split at he
    · split at he
      · exact he
      · rcases List.mem_append.mp he with h | h
        · exact h
        · exact (ih e h).1
    · exact (ih e he).1

theorem isReport_ne_setIsRegistered {e : Effect} (h : e.isReport) (b : Bool) :
    e ≠ .setIsRegistered b := by
  rcases h with ⟨t, rfl⟩ | rfl <;> simp

theorem isReport_ne_invoke {e : Effect} (h : e.isReport) (op : ProviderOp) :
    e ≠ .invoke op := by
  rcases h with ⟨t, rfl⟩ | rfl <;> simp

theorem handleLogin_keeps (env : Env) (s : State) (initOut registerOut : Outcome) :
    keepsRegistration (handleLogin env s initOut registerOut) := by
  intro e he b
  rcases handleLogin_effects env s initOut registerOut e he with h | ⟨_, _, rfl | rfl⟩
  · exact isReport_ne_setIsRegistered h b
  · simp
  · simp

theorem handleCall_keeps (env : Env) (s : State) (out : Outcome) :
    keepsRegistration (handleCall env s out) := by
  intro e he b
  rcases handleCall_effects env s out e he with h | ⟨rfl, _⟩
  · exact isReport_ne_setIsRegistered h b
  · simp

theorem handleHangup_keeps (env : Env) (out : Outcome) :
    keepsRegistration (handleHangup env out) := by
  intro e he b
  rcases handleHangup_effects env out e he with h | rfl
  · exact isReport_ne_setIsRegistered h b
  · simp


theorem stepEffects_makeCall (env : Env) (w : Session) (st : Step) (c : String)
    (h : Effect.invoke (.makeCall c) ∈ stepEffects env w st) :
    w.state.isRegistered = true := by
  cases st with
  | editUsername t => simp [stepEffects] at h
  | editPassword t => simp [stepEffects] at h
  | editDomain t => simp [stepEffects] at h
  | editCallee t => simp [stepEffects] at h
  | login initOut registerOut =>
    rcases handleLogin_effects env w.state initOut registerOut _ h with hr | ⟨_, _, h1 | h1⟩
    · exact absurd rfl (isReport_ne_invoke hr _)
    · simp at h1
    · simp at h1
  | call out =>
    rcases handleCall_effects env w.state out _ h with hr | ⟨_, _, h1, _⟩
    · exact absurd rfl (isReport_ne_invoke hr _)
    · exact h1
  | hangup out =>
    rcases handleHangup_effects env out _ h with hr | h1
    · exact absurd rfl (isReport_ne_invoke hr _)
    · simp at h1
  | event kind payload =>
    rcases listener_effects kind payload _ (dispatch_effects w.subs kind payload _ h).1 with
      hr | ⟨h1, _⟩ | ⟨h1, _⟩
    · exact absurd rfl (isReport_ne_invoke hr _)
    · simp at h1
    · simp at h1

theorem trace_makeCall (env : Env) (steps : List Step) :
    ∀ (w : Session) (entry : State × List Effect) (c : String),
      entry ∈ trace env w steps → Effect.invoke (.makeCall c) ∈ entry.2 →
        entry.1.isRegistered = true := by
  induction steps with
  | nil => intro w entry c h; simp [trace] at h
  | cons st rest ih =>
    intro w entry c h hc
    simp only [trace, List.mem_cons] at h
    rcases h with rfl | h
    · exact stepEffects_makeCall env w st c hc
    · exact ih _ entry c h hc

theorem applyEffects_registered_back (effs : List Effect) :
    ∀ s : State, (∀ e ∈ effs, e ≠ Effect.setIsRegistered true) →
      (applyEffects s effs).isRegistered = true → s.isRegistered = true := by
  induction effs with
  | nil => intro s _ h; exact h
  | cons e rest ih =>
    intro s hne h
    rw [applyEffects_cons] at h
    have h1 := ih _ (fun e1 he1 => hne e1 (List.mem_cons_of_mem _ he1)) h
    have h2 := hne e (List.mem_cons_self _ _)
    cases e with
    | setIsRegistered b =>
      cases b
      · simp [applyEffect] at h1
      · exact absurd rfl h2
    | _ => exact h1

theorem step_becomes_registered (env : Env) (w : Session) (st : Step)
    (h0 : w.state.isRegistered = false) (h1 : (step env w st).state.isRegistered = true) :
    (∃ payload, st = .event .RegistrationSuccess payload) ∧ w.subs ≠ [] := by
  have key : ∀ effs : List Effect, stepEffects env w st = effs → keepsRegistration effs →
      False := by
    intro effs he hk
    have := applyEffects_isRegistered effs w.state hk
    simp only [step, he] at h1
    rw [this, h0] at h1
    exact Bool.noConfusion h1
  cases st with
  | editUsername t => exact (key _ rfl (by intro e he b; simp [stepEffects] at he; subst he; simp)).elim
  | editPassword t => exact (key _ rfl (by intro e he b; simp [stepEffects] at he; subst he; simp)).elim
  | editDomain t => exact (key _ rfl (by intro e he b; simp [stepEffects] at he; subst he; simp)).elim
  | editCallee t => exact (key _ rfl (by intro e he b; simp [stepEffects] at he; subst he; simp)).elim
  | login initOut registerOut => exact (key _ rfl (handleLogin_keeps _ _ _ _)).elim
  | call out => exact (key _ rfl (handleCall_keeps _ _ _)).elim
  | hangup out => exact (key _ rfl (handleHangup_keeps _ _)).elim
  | event kind payload =>
    by_cases hk : kind = .RegistrationSuccess
    · subst hk
      refine ⟨⟨payload, rfl⟩, ?_⟩
      intro hs
      simp [step, stepEffects, hs, dispatch, applyEffects, h0] at h1
    · exfalso
      have hb := applyEffects_registered_back (dispatch w.subs kind payload) w.state ?_ h1
      · rw [h0] at hb
        exact Bool.noConfusion hb
      · intro e he
        rcases listener_effects kind payload e (dispatch_effects _ _ _ e he).1 with
          hr | ⟨_, h2⟩ | ⟨h2, _⟩
        · exact isReport_ne_setIsRegistered hr true
        · exact absurd h2 hk
        · rw [h2]; simp

theorem step_inv (env : Env) (w : Session) (st : Step) (h : w.Inv env) :
    (step env w st).Inv env := by
  refine ⟨?_, h.2⟩
  intro h1
  cases h0 : w.state.isRegistered with
  | true => exact h.1 h0
  | false =>
    have hs := (step_becomes_registered env w st h0 h1).2
    cases he : env.sipEvents with
    | false => exact absurd (h.2 he) hs
    | true =>
      simp only [Env.sipEvents, Bool.and_eq_true] at he
      exact he.1

theorem run_inv (env : Env) (steps : List Step) :
    ∀ w : Session, w.Inv env → (run env w steps).Inv env := by
  induction steps with
  | nil => intro w h; exact h
  | cons st rest ih => intro w h; exact ih _ (step_inv env w st h)

theorem mount_inv (env : Env) (io : InitOutcome) : (mount env io).Inv env := by
  constructor
  · intro h
    exfalso
    unfold mount activate at h
    split at h
    · cases io <;> simp [initEffects, applyEffects, applyEffect, State.initial] at h
    · simp [applyEffects, State.initial] at h
  · intro he
    simp [mount, activate, he, Emitter.empty]

theorem setStatusWithError_callFailed (err : JSValue) :
    Effect.setStatus "❌ SIP not available" ∉ setStatusWithError "❌ Call failed: " err := by
  unfold setStatusWithError
  split
  · intro h
    simp only [List.mem_singleton, Effect.setStatus.injEq] at h
    have h2 := congrArg String.data h
    rw [String.data_append] at h2
    have h3 := congrArg (fun l => l.get? 2) h2
    simp at h3
  · simp

theorem providerCalls_setStatusWithError (pre : String) (err : JSValue) :
    providerCalls (setStatusWithError pre err) = 0 := by
  unfold setStatusWithError
  split <;> rfl

/-! ## The event table for payloads other than `undefined` and `null` -/

theorem messageOr_isSome (v : JSValue) (hu : v ≠ .undefined) (hn : v ≠ .null) :
    ∃ m, messageOr v = some m := by
  cases v with
  | undefined => exact absurd rfl hu
  | null => exact absurd rfl hn
  | str s => exact ⟨s, rfl⟩
  | obj message shown =>
    cases message with
    | none => exact ⟨shown, rfl⟩
    | some m => exact ⟨_, rfl⟩

theorem event_table_with_payload (s : State) (payload : JSValue)
    (hu : payload ≠ .undefined) (hn : payload ≠ .null) :
    ((applyEffects s (listener .RegistrationSuccess payload)).isRegistered = true ∧
      statusKind (applyEffects s (listener .RegistrationSuccess payload)).status
        = .Success) ∧
    ((applyEffects s (listener .RegistrationFailed payload)).isRegistered = false ∧
      statusKind (applyEffects s (listener .RegistrationFailed payload)).status
        = .Error) ∧
    ((applyEffects s (listener .IncomingCall payload)).isRegistered = s.isRegistered ∧
      statusKind (applyEffects s (listener .IncomingCall payload)).status = .Info) ∧
    ((applyEffects s (listener .CallEstablished payload)).isRegistered = s.isRegistered ∧
      statusKind (applyEffects s (listener .CallEstablished payload)).status
        = .Success) ∧
    ((applyEffects s (listener .CallEnded payload)).isRegistered = s.isRegistered ∧
      statusKind (applyEffects s (listener .CallEnded payload)).status = .Info) ∧
    ((applyEffects s (listener .CallError payload)).isRegistered = s.isRegistered ∧
      statusKind (applyEffects s (listener .CallError payload)).status = .Error) := by
  obtain ⟨m, hm⟩ := messageOr_isSome payload hu hn
  have h1 : statusKind "✅ Registered successfully" = .Success := by decide
  have h2 : statusKind "✅ Call connected" = .Success := by decide
  have h3 : statusKind "📴 Call ended" = .Info := by decide
  refine ⟨⟨rfl, h1⟩, ⟨?_, ?_⟩, ⟨rfl, ?_⟩, ⟨rfl, h2⟩, ⟨rfl, h3⟩, ⟨?_, ?_⟩⟩
  · simp [listener, setStatusWithError, hm, applyEffects, applyEffect]
  · simp [listener, setStatusWithError, hm, applyEffects, applyEffect, statusKind,
      startsWith, String.data_append]
  · simp [listener, applyEffects, applyEffect, statusKind, startsWith, String.data_append]
  · simp [listener, setStatusWithError, hm, applyEffects, applyEffect]
  · simp [listener, setStatusWithError, hm, applyEffects, applyEffect, statusKind,
      startsWith, String.data_append]

theorem failure_event_with_message (s : State) (m shown : String) (hm : m ≠ "") :
    listener .CallError (.obj (some m) shown) = [.setStatus ("❌ Call error: " ++ m)] ∧
    containsText (applyEffects s (listener .CallError (.obj (some m) shown))).status m ∧
    listener .RegistrationFailed (.obj (some m) shown)
      = [.setIsRegistered false, .setStatus ("❌ Registration failed: " ++ m)] ∧
    containsText
      (applyEffects s (listener .RegistrationFailed (.obj (some m) shown))).status m := by
  have h : messageOr (.obj (some m) shown) = some m := by simp [messageOr, hm]
  refine ⟨?_, ?_, ?_, ?_⟩
  · simp [listener, setStatusWithError, h]
  · rw [listener, setStatusWithError, h]
    simp only [applyEffects, List.foldl, applyEffect, containsText, String.data_append]
    exact (List.suffix_append _ _).isInfix
  · simp [listener, setStatusWithError, h]
  · rw [listener, setStatusWithError, h]
    simp only [applyEffects, List.foldl, applyEffect, containsText, String.data_append]
    exact (List.suffix_append _ _).isInfix

/-! ## The claims -/

/-- C1: with a non-empty callee and `isRegistered = false`, `handleCall` only sets the
status "Please register first": it invokes no native operation and leaves the
registration state as it was.  Along every trace, from any session,
`SipCallManager.makeCall` is invoked only by a step that starts in a registered
state. -/
theorem placeCall_requires_registration :
    (∀ (env : Env) (s : State) (out : Outcome), s.callee ≠ "" → s.isRegistered = false →
      handleCall env s out = [.setStatus "⚠️ Please register first"] ∧
      providerCalls (handleCall env s out) = 0 ∧
      (applyEffects s (handleCall env s out)).isRegistered = s.isRegistered ∧
      (applyEffects s (handleCall env s out)).status = "⚠️ Please register first") ∧
    (∀ (env : Env) (w : Session) (steps : List Step) (entry : State × List Effect)
      (c : String), entry ∈ trace env w steps → Effect.invoke (.makeCall c) ∈ entry.2 →
        entry.1.isRegistered = true) := by
  refine ⟨?_, fun env w steps => trace_makeCall env steps w⟩
  intro env s out hc hr
  have h : handleCall env s out = [.setStatus "⚠️ Please register first"] := by
    simp [handleCall, hc, hr]
  rw [h]
  exact ⟨rfl, rfl, rfl, rfl⟩

/-- Witness of C1: scenario B, a call to "1000" before registration; and a trace of one
call that does invoke `makeCall`, from a registered state. -/
theorem placeCall_requires_registration_witness :
    (handleCall fullEnv aliceState .resolved = [.setStatus "⚠️ Please register first"] ∧
      providerCalls (handleCall fullEnv aliceState .resolved) = 0 ∧
      (applyEffects aliceState (handleCall fullEnv aliceState .resolved)).isRegistered
        = aliceState.isRegistered ∧
      (applyEffects aliceState (handleCall fullEnv aliceState .resolved)).status
        = "⚠️ Please register first") ∧
    aliceRegistered.isRegistered = true :=
  ⟨placeCall_requires_registration.1 fullEnv aliceState .resolved (by decide) rfl,
    placeCall_requires_registration.2 fullEnv ⟨aliceRegistered, []⟩ [.call .resolved]
      (aliceRegistered, handleCall fullEnv aliceRegistered .resolved) "1000"
      (by simp [trace, stepEffects]) (by decide)⟩

/-- C5: `handleLogin` with an empty username, password or domain, and `handleCall` with
an empty callee (registered or not), perform exactly one effect, the `setStatus` call
with the validation message: no native operation is invoked, the status is updated
once, and the registration state is as it was. -/
theorem validation_rejects_before_provider :
    (∀ (env : Env) (s : State) (initOut registerOut : Outcome),
      (s.sipUsername = "" ∨ s.sipPassword = "" ∨ s.sipDomain = "") →
      handleLogin env s initOut registerOut = [.setStatus "⚠️ Fill all SIP login fields"] ∧
      providerCalls (handleLogin env s initOut registerOut) = 0 ∧
      statusUpdates (handleLogin env s initOut registerOut) = 1 ∧
      (applyEffects s (handleLogin env s initOut registerOut)).isRegistered
        = s.isRegistered ∧
      (applyEffects s (handleLogin env s initOut registerOut)).status
        = "⚠️ Fill all SIP login fields") ∧
    (∀ (env : Env) (s : State) (out : Outcome), s.callee = "" →
      handleCall env s out = [.setStatus "⚠️ Enter SIP number to call."] ∧
      providerCalls (handleCall env s out) = 0 ∧
      statusUpdates (handleCall env s out) = 1 ∧
      (applyEffects s (handleCall env s out)).isRegistered = s.isRegistered ∧
      (applyEffects s (handleCall env s out)).status = "⚠️ Enter SIP number to call.") := by
  constructor
  · intro env s initOut registerOut hv
    have h : handleLogin env s initOut registerOut
        = [.setStatus "⚠️ Fill all SIP login fields"] := by
      simp [handleLogin, hv]
    rw [h]
    exact ⟨rfl, rfl, rfl, rfl, rfl⟩
  · intro env s out hv
    have h : handleCall env s out = [.setStatus "⚠️ Enter SIP number to call."] := by
      simp [handleCall, hv]
    rw [h]
    exact ⟨rfl, rfl, rfl, rfl, rfl⟩

/-- Witness of C5: a login without a password and a call without a callee, in a
registered state. -/
theorem validation_rejects_before_provider_witness :
    handleLogin fullEnv { aliceRegistered with sipPassword := "" } .resolved .resolved
      = [.setStatus "⚠️ Fill all SIP login fields"] ∧
    handleCall fullEnv { aliceRegistered with callee := "" } .resolved
      = [.setStatus "⚠️ Enter SIP number to call."] :=
  ⟨(validation_rejects_before_provider.1 fullEnv { aliceRegistered with sipPassword := "" }
      .resolved .resolved (Or.inr (Or.inl rfl))).1,
    (validation_rejects_before_provider.2 fullEnv { aliceRegistered with callee := "" }
      .resolved rfl).1⟩

/-- C7: without `SipModule`, `handleLogin` with three non-empty fields only sets the
status "Native module not loaded", and `handleCall` with a non-empty callee in a
registered state only sets the status "SIP not available".  Both statuses are of kind
Error and differ from each other; no native operation is invoked, no exception leaves
the handler, and the registration state is as it was. -/
theorem provider_unavailable :
    (∀ (env : Env) (s : State) (initOut registerOut : Outcome), env.sipModule = false →
      s.sipUsername ≠ "" → s.sipPassword ≠ "" → s.sipDomain ≠ "" →
      handleLogin env s initOut registerOut = [.setStatus "❌ Native module not loaded"] ∧
      providerCalls (handleLogin env s initOut registerOut) = 0 ∧
      Effect.throw ∉ handleLogin env s initOut registerOut ∧
      (applyEffects s (handleLogin env s initOut registerOut)).isRegistered
        = s.isRegistered ∧
      statusKind (applyEffects s (handleLogin env s initOut registerOut)).status
        = .Error) ∧
    (∀ (env : Env) (s : State) (out : Outcome), env.sipModule = false →
      s.callee ≠ "" → s.isRegistered = true →
      handleCall env s out = [.setStatus "❌ SIP not available"] ∧
      providerCalls (handleCall env s out) = 0 ∧
      Effect.throw ∉ handleCall env s out ∧
      (applyEffects s (handleCall env s out)).isRegistered = s.isRegistered ∧
      statusKind (applyEffects s (handleCall env s out)).status = .Error) ∧
    "❌ Native module not loaded" ≠ "❌ SIP not available" := by
  refine ⟨?_, ?_, by decide⟩
  · intro env s initOut registerOut hm hu hp hd
    have h : handleLogin env s initOut registerOut
        = [.setStatus "❌ Native module not loaded"] := by
      simp [handleLogin, hm, hu, hp, hd]
    rw [h]
    refine ⟨rfl, rfl, by decide, rfl, ?_⟩
    show statusKind "❌ Native module not loaded" = .Error
    decide
  · intro env s out hm hc hr
    have h : handleCall env s out = [.setStatus "❌ SIP not available"] := by
      simp [handleCall, hm, hc, hr]
    rw [h]
    refine ⟨rfl, rfl, by decide, rfl, ?_⟩
    show statusKind "❌ SIP not available" = .Error
    decide

/-- Witness of C7: a login and a call with the form filled in, on a build without the
modules. -/
theorem provider_unavailable_witness :
    handleLogin bareEnv aliceState .resolved .resolved
      = [.setStatus "❌ Native module not loaded"] ∧
    handleCall bareEnv aliceRegistered .resolved = [.setStatus "❌ SIP not available"] :=
  ⟨(provider_unavailable.1 bareEnv aliceState .resolved .resolved rfl (by decide)
      (by decide) (by decide)).1,
    (provider_unavailable.2.1 bareEnv aliceRegistered .resolved rfl (by decide) rfl).1⟩


/-- C8: whatever the promises of `SipCallManager.init` and `SipModule.register` do,
`handleLogin` leaves `isRegistered` as it was; a step that takes the component from
not registered to registered is the delivery of a `RegistrationSuccess` event to a
subscribed listener, and the `RegistrationSuccess` listener does set `isRegistered`. -/
theorem login_two_phase :
    (∀ (env : Env) (s : State) (initOut registerOut : Outcome),
      (applyEffects s (handleLogin env s initOut registerOut)).isRegistered
        = s.isRegistered) ∧
    (∀ (env : Env) (w : Session) (st : Step), w.state.isRegistered = false →
      (step env w st).state.isRegistered = true →
        ∃ payload, st = .event .RegistrationSuccess payload) ∧
    (∀ (s : State) (payload : JSValue),
      (applyEffects s (listener .RegistrationSuccess payload)).isRegistered = true) := by
  refine ⟨?_, ?_, ?_⟩
  · intro env s initOut registerOut
    exact applyEffects_isRegistered _ s (handleLogin_keeps env s initOut registerOut)
  · intro env w st h0 h1
    exact (step_becomes_registered env w st h0 h1).1
  · intro s payload
    rfl

/-- Witness of C8: scenario A, the `RegistrationSuccess` event delivered to the
mounted component before it is registered. -/
theorem login_two_phase_witness :
    aliceSession.state.isRegistered = false ∧
    (step fullEnv aliceSession (.event .RegistrationSuccess .undefined)).state.isRegistered
      = true ∧
    ∃ payload, Step.event .RegistrationSuccess .undefined
      = Step.event .RegistrationSuccess payload :=
  ⟨by decide, by decide,
    login_two_phase.2.1 fullEnv aliceSession (.event .RegistrationSuccess .undefined)
      (by decide) (by decide)⟩


/-- C10: in every state reached from the mounted component (not registered, status
"Not connected" unless the initialization block failed) by text edits, calls of
`handleLogin`, `handleCall`, `handleHangup` and events delivered through the emitter,
`isRegistered` holds only if `SipModule` is present; so `handleCall` never sets the
status "SIP not available" there, and without `SipModule` a call with a non-empty callee
only sets the status "Please register first". -/
theorem registered_only_with_provider (env : Env) (io : InitOutcome) (steps : List Step) :
    ((run env (mount env io) steps).state.isRegistered = true → env.sipModule = true) ∧
    (∀ out : Outcome, Effect.setStatus "❌ SIP not available"
      ∉ handleCall env (run env (mount env io) steps).state out) ∧
    (env.sipModule = false → (run env (mount env io) steps).state.callee ≠ "" →
      ∀ out : Outcome, handleCall env (run env (mount env io) steps).state out
        = [.setStatus "⚠️ Please register first"]) := by
  have hreg : (run env (mount env io) steps).state.isRegistered = true →
      env.sipModule = true := (run_inv env steps (mount env io) (mount_inv env io)).1
  generalize (run env (mount env io) steps).state = s at hreg ⊢
  refine ⟨hreg, ?_, ?_⟩
  · intro out hmem
    unfold handleCall at hmem
    split at hmem
    · simp at hmem
    · split at hmem
      · simp at hmem
      · rename_i hr
        split at hmem
        · rename_i hm
          have := hreg (by simpa using hr)
          rw [hm] at this
          exact Bool.noConfusion this
        · simp only [List.mem_cons, Effect.setStatus.injEq] at hmem
          rcases hmem with h | hmem
          · revert h; decide
          · split at hmem
            · exact setStatusWithError_callFailed _ hmem
            · simp only [List.mem_cons] at hmem
              rcases hmem with h | hmem
              · simp at h
              · split at hmem
                · exact setStatusWithError_callFailed _ hmem
                · simp at hmem
  · intro hm hc out
    have hr : s.isRegistered = false := by
      cases h : s.isRegistered with
      | false => rfl
      | true =>
        have := hreg h
        rw [hm] at this
        exact Bool.noConfusion this
    simp [handleCall, hc, hr]

/-- Witness of C10: on a build without the modules, after a login attempt, a
`RegistrationSuccess` event and an edit of the callee, a call is still answered with
"Please register first"; on a build with the modules the same steps do register. -/
theorem registered_only_with_provider_witness :
    handleCall bareEnv
      (run bareEnv (mount bareEnv .ok)
        [.editUsername "alice", .editPassword "pw", .editDomain "sip.example.com",
          .login .resolved .resolved, .event .RegistrationSuccess .undefined,
          .editCallee "1000"]).state .resolved
      = [.setStatus "⚠️ Please register first"] ∧
    fullEnv.sipModule = true :=
  ⟨(registered_only_with_provider bareEnv .ok
      [.editUsername "alice", .editPassword "pw", .editDomain "sip.example.com",
        .login .resolved .resolved, .event .RegistrationSuccess .undefined,
        .editCallee "1000"]).2.2 rfl (by decide) .resolved,
    (registered_only_with_provider fullEnv .ok
      [.editUsername "alice", .editPassword "pw", .editDomain "sip.example.com",
        .login .resolved .resolved, .event .RegistrationSuccess .undefined,
        .editCallee "1000"]).1 (by decide)⟩

/-- Counterexample to C3: in a registered state, with the form filled in and both
modules present, `handleLogin` invokes `SipCallManager.init` and `SipModule.register`
again. -/
theorem handleLogin_reinvokes_when_registered :
    aliceRegistered.isRegistered = true ∧
    handleLogin fullEnv aliceRegistered .resolved .resolved
      = [.setStatus "Registering...", .invoke (.init "alice" "sip.example.com" "pw"),
          .invoke (.register "alice" "sip.example.com" "pw"),
          .setStatus "✅ Registration in progress"] ∧
    providerCalls (handleLogin fullEnv aliceRegistered .resolved .resolved) = 2 := by
  decide

/-- C3, amended: the guard against a second login is the `disabled` attribute of the Login
button.  In a registered state a press of the button has no effect at all, and in a
state that is not registered a press runs `handleLogin`.  `handleLogin` itself does not
test `isRegistered`: in every state it leaves `isRegistered` as it was, and in a
registered state with three non-empty fields and both modules present it invokes
`SipCallManager.init` with the three fields, then `SipModule.register` with the three
fields when the promise of `init` resolves, and not when it is rejected. -/
theorem login_guard_is_the_button :
    (∀ (env : Env) (s : State) (initOut registerOut : Outcome), s.isRegistered = true →
      pressLogin env s initOut registerOut = [] ∧
      applyEffects s (pressLogin env s initOut registerOut) = s) ∧
    (∀ (env : Env) (s : State) (initOut registerOut : Outcome), s.isRegistered = false →
      pressLogin env s initOut registerOut = handleLogin env s initOut registerOut) ∧
    (∀ (env : Env) (s : State) (initOut registerOut : Outcome),
      (applyEffects s (handleLogin env s initOut registerOut)).isRegistered
        = s.isRegistered) ∧
    (∀ (env : Env) (s : State) (initOut registerOut : Outcome), s.isRegistered = true →
      s.sipUsername ≠ "" → s.sipPassword ≠ "" → s.sipDomain ≠ "" →
      env.sipModule = true → env.sipCallManager = true →
      Effect.invoke (.init s.sipUsername s.sipDomain s.sipPassword)
        ∈ handleLogin env s initOut registerOut ∧
      (initOut = .resolved →
        Effect.invoke (.register s.sipUsername s.sipDomain s.sipPassword)
          ∈ handleLogin env s initOut registerOut ∧
        providerCalls (handleLogin env s initOut registerOut) = 2) ∧
      (∀ err : JSValue, initOut = .rejected err →
        Effect.invoke (.register s.sipUsername s.sipDomain s.sipPassword)
          ∉ handleLogin env s initOut registerOut ∧
        providerCalls (handleLogin env s initOut registerOut) = 1)) := by
  refine ⟨?_, ?_, ?_, ?_⟩
  · intro env s initOut registerOut hr
    have h : pressLogin env s initOut registerOut = [] := by simp [pressLogin, hr]
    rw [h]
    exact ⟨rfl, rfl⟩
  · intro env s initOut registerOut hr
    simp [pressLogin, hr]
  · intro env s initOut registerOut
    exact applyEffects_isRegistered _ s (handleLogin_keeps env s initOut registerOut)
  · intro env s initOut registerOut _ hu hp hd hm hc
    refine ⟨by simp [handleLogin, hu, hp, hd, hm, hc], ?_, ?_⟩
    · intro hi
      subst hi
      refine ⟨by simp [handleLogin, hu, hp, hd, hm, hc], ?_⟩
      cases registerOut with
      | resolved =>
        simp [handleLogin, hu, hp, hd, hm, hc, providerCalls, Effect.isInvoke,
          List.countP_cons]
      | rejected err =>
        have h := providerCalls_setStatusWithError "❌ Error: " err
        simp only [providerCalls] at h
        simp [handleLogin, hu, hp, hd, hm, hc, providerCalls, Effect.isInvoke,
          List.countP_cons, h]
    · intro err hi
      subst hi
      have h := providerCalls_setStatusWithError "❌ Error: " err
      simp only [providerCalls] at h
      refine ⟨?_, ?_⟩
      · intro hmem
        simp only [handleLogin, hu, hp, hd, hm, hc, or_self, if_false, List.mem_cons,
          reduceCtorEq, Effect.invoke.injEq, false_or] at hmem
        exact isReport_ne_invoke (setStatusWithError_effects _ _ _ hmem) _ rfl
      · simp [handleLogin, hu, hp, hd, hm, hc, providerCalls, Effect.isInvoke,
          List.countP_cons, h]

/-- Witness of C3, amended: the registered state with the form filled in, with the
promise of `init` resolved and with it rejected; and a press before registration. -/
theorem login_guard_is_the_button_witness :
    (pressLogin fullEnv aliceRegistered .resolved .resolved = [] ∧
      applyEffects aliceRegistered (pressLogin fullEnv aliceRegistered .resolved .resolved)
        = aliceRegistered) ∧
    pressLogin fullEnv aliceState .resolved .resolved
      = handleLogin fullEnv aliceState .resolved .resolved ∧
    (Effect.invoke (.register "alice" "sip.example.com" "pw")
        ∈ handleLogin fullEnv aliceRegistered .resolved .resolved ∧
      providerCalls (handleLogin fullEnv aliceRegistered .resolved .resolved) = 2) ∧
    (Effect.invoke (.register "alice" "sip.example.com" "pw")
        ∉ handleLogin fullEnv aliceRegistered (.rejected (.str "busy")) .resolved ∧
      providerCalls (handleLogin fullEnv aliceRegistered (.rejected (.str "busy")) .resolved)
        = 1) :=
  ⟨login_guard_is_the_button.1 fullEnv aliceRegistered .resolved .resolved rfl,
    login_guard_is_the_button.2.1 fullEnv aliceState .resolved .resolved rfl,
    (login_guard_is_the_button.2.2.2 fullEnv aliceRegistered .resolved .resolved rfl
      (by decide) (by decide) (by decide) rfl rfl).2.1 rfl,
    (login_guard_is_the_button.2.2.2 fullEnv aliceRegistered (.rejected (.str "busy"))
      .resolved rfl (by decide) (by decide) (by decide) rfl rfl).2.2 (.str "busy") rfl⟩

/-- Counterexample to C4: in a registered state with both modules present, a call to
"1000" followed by a call to "2000", with no event in between, invokes
`SipCallManager.makeCall` twice. -/
theorem second_call_is_executed :
    aliceRegistered.isRegistered = true ∧
    allEffects fullEnv { state := aliceRegistered, subs := [] }
        [.editCallee "1000", .call .resolved, .editCallee "2000", .call .resolved]
      = [.setCallee "1000", .setStatus "📞 Calling...", .invoke (.makeCall "1000"),
          .setStatus "✅ Call initiated", .setCallee "2000", .setStatus "📞 Calling...",
          .invoke (.makeCall "2000"), .setStatus "✅ Call initiated"] ∧
    ¬ makeCalls (allEffects fullEnv { state := aliceRegistered, subs := [] }
        [.editCallee "1000", .call .resolved, .editCallee "2000", .call .resolved]) ≤ 1 := by
  decide

theorem makeCalls_setStatusWithError (pre : String) (err : JSValue) :
    makeCalls (setStatusWithError pre err) = 0 := by
  unfold setStatusWithError
  split <;> rfl

theorem handleCall_makeCalls (env : Env) (s : State) (out : Outcome)
    (hm : env.sipModule = true) (hc : env.sipCallManager = true)
    (hr : s.isRegistered = true) (ha : s.callee ≠ "") :
    makeCalls (handleCall env s out) = 1 ∧
    Effect.invoke (.makeCall s.callee) ∈ handleCall env s out := by
  cases out with
  | resolved => simp [handleCall, hm, hc, hr, ha, makeCalls, Effect.isMakeCall]
  | rejected err =>
    have h := makeCalls_setStatusWithError "❌ Call failed: " err
    simp only [makeCalls] at h
    simp [handleCall, hm, hc, hr, ha, makeCalls, Effect.isMakeCall, List.countP_cons, h]

/-- C4, amended: the component keeps no call state and `handleCall` has no guard
against a call in progress.  In every registered state with both modules present, a
call to a non-empty address `a` followed by a call to a non-empty address `b`, with no
event in between, invokes `SipCallManager.makeCall` exactly twice, once for `a` and
once for `b`, whatever the promise of the first call does. -/
theorem second_call_not_guarded (env : Env) (s : State) (subs : List Subscription)
    (a b : String) (out1 out2 : Outcome)
    (hm : env.sipModule = true) (hc : env.sipCallManager = true)
    (hr : s.isRegistered = true) (ha : a ≠ "") (hb : b ≠ "") :
    makeCalls (allEffects env { state := s, subs := subs }
      [.editCallee a, .call out1, .editCallee b, .call out2]) = 2 ∧
    Effect.invoke (.makeCall a) ∈ allEffects env { state := s, subs := subs }
      [.editCallee a, .call out1, .editCallee b, .call out2] ∧
    Effect.invoke (.makeCall b) ∈ allEffects env { state := s, subs := subs }
      [.editCallee a, .call out1, .editCallee b, .call out2] := by
  let s1 : State := { s with callee := a }
  let s2 : State := applyEffects s1 (handleCall env s1 out1)
  let s3 : State := { s2 with callee := b }
  have hs2 : s2.isRegistered = true :=
    (applyEffects_isRegistered _ s1 (handleCall_keeps env s1 out1)).trans hr
  have h1 := handleCall_makeCalls env s1 out1 hm hc hr ha
  have h3 := handleCall_makeCalls env s3 out2 hm hc hs2 hb
  have hall : allEffects env { state := s, subs := subs }
      [.editCallee a, .call out1, .editCallee b, .call out2]
      = .setCallee a ::
          (handleCall env s1 out1 ++ (.setCallee b :: (handleCall env s3 out2 ++ []))) :=
    rfl
  rw [hall]
  refine ⟨?_, ?_, ?_⟩
  · have e1 := h1.1
    have e3 := h3.1
    simp only [makeCalls] at e1 e3 ⊢
    simp [List.countP_cons, List.countP_append, e1, e3, Effect.isMakeCall]
  · exact List.mem_cons_of_mem _ (List.mem_append_left _ h1.2)
  · exact List.mem_cons_of_mem _ (List.mem_append_right _
      (List.mem_cons_of_mem _ (List.mem_append_left _ h3.2)))

/-- Witness of C4, amended: calls to "1000" and "2000" in the registered state. -/
theorem second_call_not_guarded_witness :
    makeCalls (allEffects fullEnv { state := aliceRegistered, subs := [] }
      [.editCallee "1000", .call .resolved, .editCallee "2000",
        .call (.rejected (.str "busy"))]) = 2 :=
  (second_call_not_guarded fullEnv aliceRegistered [] "1000" "2000" .resolved
    (.rejected (.str "busy")) rfl rfl rfl (by decide) (by decide)).1


theorem activate_subs_of_emitter (env : Env) (io : InitOutcome) (em : Emitter)
    (he : env.sipEvents = true) :
    (activate env io em).emitter.subs = em.subs ++
      [⟨em.nextId, .RegistrationSuccess⟩, ⟨em.nextId + 1, .RegistrationFailed⟩,
        ⟨em.nextId + 2, .IncomingCall⟩, ⟨em.nextId + 3, .CallEstablished⟩,
        ⟨em.nextId + 4, .CallEnded⟩, ⟨em.nextId + 5, .CallError⟩] ∧
    (activate env io em).cleanup = some [em.nextId, em.nextId + 1, em.nextId + 2,
      em.nextId + 3, em.nextId + 4, em.nextId + 5] ∧
    (activate env io em).emitter.nextId = em.nextId + 6 := by
  have h := he
  simp only [Env.sipEvents, Bool.and_eq_true] at h
  simp [activate, he, h.1, h.2, Emitter.addListener]

theorem activate_without_emitter (env : Env) (io : InitOutcome) (em : Emitter)
    (he : env.sipEvents = false) : activate env io em = ⟨em, [], none⟩ := by
  simp [activate, he]

theorem activate_teardown (env : Env) (io : InitOutcome) (em : Emitter) (hf : em.Fresh) :
    (teardown (activate env io em).emitter (activate env io em).cleanup).subs = em.subs ∧
    (teardown (activate env io em).emitter (activate env io em).cleanup).Fresh := by
  cases he : env.sipEvents with
  | false =>
    rw [activate_without_emitter env io em he]
    exact ⟨rfl, hf⟩
  | true =>
    obtain ⟨h1, h2, h3⟩ := activate_subs_of_emitter env io em he
    have hsubs : (teardown (activate env io em).emitter (activate env io em).cleanup).subs
        = em.subs := by
      rw [h2]
      simp only [teardown, List.foldl, Emitter.remove, h1, List.filter_filter,
        List.filter_append]
      have hkeep : ∀ sub ∈ em.subs,
          ((sub.id != em.nextId + 5 && (sub.id != em.nextId + 4 &&
            (sub.id != em.nextId + 3 && (sub.id != em.nextId + 2 &&
              (sub.id != em.nextId + 1 && sub.id != em.nextId))))) = true) := by
        intro sub hs
        have := hf sub hs
        simp only [Bool.and_eq_true, bne_iff_ne, ne_eq]
        omega
      rw [List.filter_eq_self.2 hkeep]
      simp
    refine ⟨hsubs, ?_⟩
    intro sub hs
    rw [hsubs] at hs
    have h4 : (teardown (activate env io em).emitter (activate env io em).cleanup).nextId
        = em.nextId + 6 := by
      rw [h2]
      simp only [teardown, List.foldl, Emitter.remove, h3]
    rw [h4]
    have := hf sub hs
    omega

theorem cycles_subs (env : Env) (ios : List InitOutcome) :
    ∀ em : Emitter, em.Fresh → (cycles env ios em).subs = em.subs ∧ (cycles env ios em).Fresh := by
  induction ios with
  | nil => intro em hf; exact ⟨rfl, hf⟩
  | cons io rest ih =>
    intro em hf
    obtain ⟨h1, h2⟩ := activate_teardown env io em hf
    obtain ⟨h3, h4⟩ := ih _ h2
    exact ⟨h3.trans h1, h4⟩

theorem Emitter.empty_fresh : Emitter.empty.Fresh := by
  intro sub hs
  simp [Emitter.empty] at hs


/-- C9: teardown removes exactly the listeners that the activation added, whatever the
initialization block did: the listener table is again the one before the activation.
So after any number of activation/teardown cycles no listener is left, and one more
activation subscribes, when the emitter `sipEvents` exists, six listeners, exactly one
of each kind; a `RegistrationSuccess` event then runs the listener once. -/
theorem unsubscribe_on_teardown (env : Env) (ios : List InitOutcome) (io : InitOutcome) :
    (∀ em : Emitter, em.Fresh →
      (teardown (activate env io em).emitter (activate env io em).cleanup).subs = em.subs) ∧
    (cycles env ios Emitter.empty).subs = [] ∧
    (env.sipEvents = true →
      (activate env io (cycles env ios Emitter.empty)).emitter.subs.length = 6 ∧
      (∀ kind : EventKind,
        listenersOf (activate env io (cycles env ios Emitter.empty)).emitter.subs kind = 1) ∧
      (∀ payload : JSValue,
        dispatch (activate env io (cycles env ios Emitter.empty)).emitter.subs
          .RegistrationSuccess payload
          = [.setIsRegistered true, .setStatus "✅ Registered successfully"])) := by
  have hc := cycles_subs env ios Emitter.empty Emitter.empty_fresh
  have hnil : (cycles env ios Emitter.empty).subs = [] := hc.1
  refine ⟨fun em hf => (activate_teardown env io em hf).1, hnil, ?_⟩
  intro he
  have h1 := (activate_subs_of_emitter env io (cycles env ios Emitter.empty) he).1
  rw [hnil] at h1
  rw [h1]
  refine ⟨rfl, ?_, ?_⟩
  · intro kind
    cases kind <;> simp [listenersOf, List.countP_cons]
  · intro payload
    simp [dispatch, listener]

/-- Witness of C9: a table that already holds a foreign listener is unchanged by an
activation whose initialization throws followed by the teardown; and after three
cycles one activation leaves one `RegistrationSuccess` listener. -/
theorem unsubscribe_on_teardown_witness :
    (teardown (activate fullEnv .initializeThrows busyEmitter).emitter
      (activate fullEnv .initializeThrows busyEmitter).cleanup).subs = busyEmitter.subs ∧
    listenersOf (activate fullEnv .initializeThrows
      (cycles fullEnv [.ok, .initializeThrows, .listenThrows] Emitter.empty)).emitter.subs
      .RegistrationSuccess = 1 :=
  ⟨(unsubscribe_on_teardown fullEnv [] .initializeThrows).1 busyEmitter
      (by intro sub hs; simp [busyEmitter] at hs; subst hs; decide),
    ((unsubscribe_on_teardown fullEnv [.ok, .initializeThrows, .listenThrows]
      .initializeThrows).2.2 rfl).2.1 .RegistrationSuccess⟩

/-- C6, at the failing input: a `CallError` or `RegistrationFailed` event whose payload is
`undefined` or `null` makes the listener throw before it calls `setStatus`, so the
status keeps its previous kind. -/
theorem failure_event_without_payload_throws :
    listener .CallError .undefined = [.throw] ∧
    listener .CallError .null = [.throw] ∧
    listener .RegistrationFailed .undefined = [.setIsRegistered false, .throw] ∧
    listener .RegistrationFailed .null = [.setIsRegistered false, .throw] ∧
    statusKind (applyEffects aliceRegistered (listener .CallError .undefined)).status
      = .Success := by
  decide

/-- C2, at the failing input: a `RegistrationFailed` event without payload, delivered to
the mounted component while the status is "Not connected", leaves a status of kind
Info, not Error; so does a `CallError` event without payload. -/
theorem failure_event_without_payload_kind :
    (step fullEnv aliceSession (.event .RegistrationFailed .undefined)).state.status
      = "Not connected" ∧
    statusKind (step fullEnv aliceSession (.event .RegistrationFailed .undefined)).state.status
      = .Info ∧
    statusKind (step fullEnv aliceSession (.event .CallError .null)).state.status
      = .Info := by
  decide

end Mustika
